import Mathlib

/-!
A shallow embedding of `pyu2f/hid/openbsd.py`, the OpenBSD raw-HID backend of
pyu2f: the device enumerator `OpenBSDHidDevice.Enumerate`, the
report-descriptor interpreter `ReadReportDescriptor`, and the
`OpenBSDHidDevice` transport, together with proofs about the behaviour the
specification describes.

External effects (libusbhid calls, `os` calls, text decoding) are modelled by
explicit environment records supplying the outcome of each native call, and
the Python code is translated into pure functions over those environments.
Python exceptions are modelled by an explicit error type, and the release of
native resources and the transport's observable effects are recorded as
explicit event lists.
-/

deriving instance DecidableEq for Except

namespace Pyu2f

/-- The Python exceptions that can arise in `pyu2f/hid/openbsd.py`, plus the
two error kinds the specification names (`DeviceUnavailable`,
`DescriptorUnavailable`).  The code never constructs the latter two; they
exist so the specification's claims can be stated and compared with what the
code raises.  `nameError` models the fact that the module-level name `Error`
used in the two `raise Error(...)` statements is unbound in `openbsd.py`
(the file neither defines nor imports `Error`), so evaluating those `raise`
statements raises Python's `NameError`. -/
inductive PyExc where
  | osError
  | unicodeDecodeError
  | nameError
  | deviceUnavailable
  | descriptorUnavailable
  deriving DecidableEq, Repr

/-- Outcomes of the libusbhid calls made by one run of `ReadReportDescriptor`.
`hid_get_report_desc` and `hid_start_parse` return pointers (`none` models a
NULL result); `hid_report_size` returns a C `int` (hence `Int`);
`hid_get_item` returns a C `int` and fills a `hid_item_t` out-parameter, of
which the code reads only the 32-bit `usage` field.  `getItemUsage` is the
value of `hiditem.usage` after the `hid_get_item` call; the `HidItem()`
constructor zero-initialises the ctypes structure, so when the library writes
nothing the field holds `0`. -/
structure RrdEnv where
  getReportDesc : Option Nat
  startParse : Option Nat
  reportSizeIn : Int
  reportSizeOut : Int
  getItemRes : Int
  getItemUsage : Nat
  deriving DecidableEq, Repr

/-- Release calls on the two native resources of `ReadReportDescriptor`:
`hid_dispose_report_desc` frees the report-descriptor handle returned by
`hid_get_report_desc`, and `hid_end_parse` frees the parser context returned
by `hid_start_parse`. -/
inductive RrdRelease where
  | disposeReportDesc
  | endParse
  deriving DecidableEq, Repr

/-- Modelled from the spec: `pyu2f.hid.base.DeviceDescriptor` (the `base`
module is not under `src/`).  A data-only record (spec section 3) whose
fields are exactly the ones `openbsd.py` assigns.
`internal_max_in_report_len` and `internal_max_out_report_len` hold results
of `hid_report_size`, a C `int`, hence `Int`. -/
structure DeviceDescriptor where
  path : String := ""
  vendor_id : Nat := 0
  product_id : Nat := 0
  vendor_string : String := ""
  product_string : String := ""
  usage_page : Nat := 0
  usage : Nat := 0
  internal_max_in_report_len : Int := 0
  internal_max_out_report_len : Int := 0
  deriving DecidableEq, Repr

/-- `ReadReportDescriptor(device_fd, desc)` from `openbsd.py`, as a pure
function of the libusbhid outcomes.  Returns the exception raised (if any),
the descriptor after the call's field assignments, and the release calls made
on the native resources, in program order.  Control flow mirrors the source:
NULL from `hid_get_report_desc` raises before anything is acquired; NULL from
`hid_start_parse` disposes the report descriptor and raises; the two
`hid_report_size` results are stored next; then `hid_get_item` is called and
a negative result disposes the report descriptor and raises; otherwise the
combined usage is split and the report descriptor is disposed.  Both `raise
Error(...)` sites raise `nameError` because `Error` is an unbound name in the
module.  No call to `hid_end_parse` appears anywhere in the source. -/
def ReadReportDescriptor (env : RrdEnv) (desc : DeviceDescriptor) :
    Option PyExc × DeviceDescriptor × List RrdRelease :=
  match env.getReportDesc with
  | none => (some PyExc.nameError, desc, [])
  | some _ =>
    match env.startParse with
    | none => (some PyExc.nameError, desc, [RrdRelease.disposeReportDesc])
    | some _ =>
      let desc2 : DeviceDescriptor :=
        { desc with
          internal_max_in_report_len := env.reportSizeIn,
          internal_max_out_report_len := env.reportSizeOut }
      if env.getItemRes < 0 then
        (some PyExc.nameError, desc2, [RrdRelease.disposeReportDesc])
      else
        (none,
         { desc2 with
           usage_page := (env.getItemUsage &&& 0xffff0000) >>> 16,
           usage := env.getItemUsage &&& 0x0000ffff },
         [RrdRelease.disposeReportDesc])

/-- The directory-entry prefix the enumerator filters on: the loop body
starts with `if not dev.startswith('uhid'): continue`. -/
def uhidStr : String := "uhid"

/-- The device directory scanned by the enumerator, with the separator that
`os.path.join('/dev', dev)` inserts. -/
def devDir : String := "/dev/"

/-- Python's `str.startswith` is a character-prefix test; it is modelled on
the character lists of the two strings. -/
def pyStartsWith (s pre : String) : Bool :=
  List.isPrefixOf pre.data s.data

/-- Outcomes of the OS calls and text decodings performed while probing one
candidate `/dev` entry in `Enumerate`, together with the fields the probe
reads from the `usb_device_info` structure filled by the
`USB_GET_DEVICEINFO` ioctl.  `udi_vendorNo` and `udi_productNo` are
`c_uint16` fields; `decode('utf-8')` on the fixed-width `c_char` buffers
either produces a string or raises `UnicodeDecodeError`, and the outcome is
supplied by the environment (`none` models a decoding failure). -/
structure CandidateEnv where
  name : String
  openOk : Bool
  ioctlOk : Bool
  vendorNo : Nat
  productNo : Nat
  vendorDecode : Option String
  productDecode : Option String
  rrd : RrdEnv
  deriving DecidableEq, Repr

/-- How an open call asks for the device: Python's built-in `open` with no
`mode` argument opens for reading only, `os.open` with `os.O_RDWR` opens for
read and write. -/
inductive OpenMode where
  | readOnly
  | readWrite
  deriving DecidableEq, Repr

/-- The mode of the probe `open(path)` call in `Enumerate`: no `mode`
argument is passed, so Python opens the node read-only (mode "r"). -/
def enumerateProbeOpenMode : OpenMode := OpenMode.readOnly

/-- The mode of `os.open(self.desc.path, os.O_RDWR)` in
`OpenBSDHidDevice.__init__`. -/
def transportOpenMode : OpenMode := OpenMode.readWrite

/-- What one iteration of the `Enumerate` loop does with a candidate:
nothing (filtered out, or an `OSError` was caught by `except OSError:
pass`), yield a descriptor, or let an uncaught exception escape the
generator. -/
inductive ProbeOutcome where
  | skipped
  | yielded (desc : DeviceDescriptor)
  | raised (e : PyExc)
  deriving DecidableEq, Repr

/-- Whether the outcome is an uncaught exception. -/
def ProbeOutcome.raises : ProbeOutcome → Bool
  | ProbeOutcome.raised _ => true
  | _ => false

/-- One iteration of the loop in `OpenBSDHidDevice.Enumerate` for directory
entry `c.name`: the `startswith` filter, then the `try` body, with its
`except OSError: pass` handler.  Only `OSError` is caught; any other
exception escapes the generator.  In the `try` body: `open(path)` and the
ioctl fail with `OSError` (caught); the two `.decode('utf-8')` calls fail
with `UnicodeDecodeError` (not an `OSError`); `ReadReportDescriptor` raises
`NameError` at its `raise` sites (not an `OSError`).  Field assignments
follow the source order: `vendor_id`, `vendor_string`, `product_id`,
`product_string`, `path`, then `ReadReportDescriptor(f.fileno(), desc)`. -/
def probeCandidate (c : CandidateEnv) : ProbeOutcome :=
  if ¬ pyStartsWith c.name uhidStr then ProbeOutcome.skipped
  else if ¬ c.openOk then ProbeOutcome.skipped
  else if ¬ c.ioctlOk then ProbeOutcome.skipped
  else
    match c.vendorDecode with
    | none => ProbeOutcome.raised PyExc.unicodeDecodeError
    | some vs =>
      match c.productDecode with
      | none => ProbeOutcome.raised PyExc.unicodeDecodeError
      | some ps =>
        match ReadReportDescriptor c.rrd
            { vendor_id := c.vendorNo, vendor_string := vs,
              product_id := c.productNo, product_string := ps,
              path := devDir ++ c.name } with
        | (some e, _, _) =>
          if e = PyExc.osError then ProbeOutcome.skipped
          else ProbeOutcome.raised e
        | (none, d, _) => ProbeOutcome.yielded d

/-- The descriptor a candidate contributes when nothing fails while probing
it, `none` when it is filtered or skipped. -/
def probeYield (c : CandidateEnv) : Option DeviceDescriptor :=
  match probeCandidate c with
  | ProbeOutcome.yielded d => some d
  | _ => none

/-- `OpenBSDHidDevice.Enumerate`, run to exhaustion over the `/dev` directory
entries in listing order, each entry's OS and library outcomes supplied by
its `CandidateEnv`.  Returns the descriptors backing the values yielded
before the generator finished or an uncaught exception escaped, and that
exception if one did (once an exception escapes a Python generator, no
further candidates are probed or yielded). -/
def Enumerate : List CandidateEnv → List DeviceDescriptor × Option PyExc
  | [] => ([], none)
  | c :: rest =>
    match probeCandidate c with
    | ProbeOutcome.skipped => Enumerate rest
    | ProbeOutcome.yielded d =>
      let r := Enumerate rest
      (d :: r.1, r.2)
    | ProbeOutcome.raised e => ([], some e)

/-- Modelled from the spec: the public record produced by
`desc.ToPublicDict()` at the `yield` (the `base` module is not under
`src/`).  Spec section 6: the upward interface of enumeration is a plain
record `path, vendor_id, product_id, vendor_string, product_string,
usage_page, usage` with no internal fields exposed. -/
structure PublicDict where
  path : String
  vendor_id : Nat
  product_id : Nat
  vendor_string : String
  product_string : String
  usage_page : Nat
  usage : Nat
  deriving DecidableEq, Repr

/-- Modelled from the spec: `DeviceDescriptor.ToPublicDict` projects the
public fields and drops the `internal_` ones. -/
def DeviceDescriptor.ToPublicDict (d : DeviceDescriptor) : PublicDict :=
  { path := d.path, vendor_id := d.vendor_id, product_id := d.product_id,
    vendor_string := d.vendor_string, product_string := d.product_string,
    usage_page := d.usage_page, usage := d.usage }

/-- The sequence actually yielded by the generator (each yield passes the
backing descriptor through `ToPublicDict`), with the escaped exception if
one aborted the run. -/
def EnumeratePublic (envs : List CandidateEnv) :
    List PublicDict × Option PyExc :=
  ((Enumerate envs).1.map DeviceDescriptor.ToPublicDict, (Enumerate envs).2)

/-- Outcomes of the OS calls made by `OpenBSDHidDevice.__init__`: `openFd`
is `some fd` when `os.open(path, os.O_RDWR)` succeeds and `none` when it
raises `OSError`; `rrd` supplies the libusbhid outcomes for the
`ReadReportDescriptor` call on the new handle. -/
structure InitEnv where
  openFd : Option Nat
  rrd : RrdEnv
  deriving DecidableEq, Repr

/-- The state of a constructed `OpenBSDHidDevice` transport: the path
recorded by `base.HidDevice.__init__` (modelled from the spec: the `base`
module is not under `src/` and the spec gives the base constructor no effect
beyond recording the path), the open file descriptor `self.dev`, and
`self.desc`. -/
structure OpenBSDHidDevice where
  path : String
  dev : Nat
  desc : DeviceDescriptor
  deriving DecidableEq, Repr

/-- `OpenBSDHidDevice.__init__(path)`: record the path, create a fresh
`DeviceDescriptor` with `desc.path = path`, open the device with
`os.open(self.desc.path, os.O_RDWR)`, then run `ReadReportDescriptor` on the
new handle.  Returns the constructed transport or the exception that
escaped, together with the list of file descriptors still open when the call
returns: the method contains no `os.close`, so a descriptor opened before a
later failure stays open. -/
def OpenBSDHidDevice.init (path : String) (env : InitEnv) :
    Except PyExc OpenBSDHidDevice × List Nat :=
  match env.openFd with
  | none => (Except.error PyExc.osError, [])
  | some fd =>
    match ReadReportDescriptor env.rrd { path := path } with
    | (some e, _, _) => (Except.error e, [fd])
    | (none, d, _) => (Except.ok { path := path, dev := fd, desc := d }, [fd])

/-- `GetInReportDataLength(self)`: returns
`self.desc.internal_max_in_report_len`; a plain field read. -/
def OpenBSDHidDevice.GetInReportDataLength (t : OpenBSDHidDevice) : Int :=
  t.desc.internal_max_in_report_len

/-- `GetOutReportDataLength(self)`: returns
`self.desc.internal_max_out_report_len`; a plain field read. -/
def OpenBSDHidDevice.GetOutReportDataLength (t : OpenBSDHidDevice) : Int :=
  t.desc.internal_max_out_report_len

/-- Observable effects of the transport methods outside the transport's own
state: `print` writing to standard output, and the `os.write`/`os.read`
calls on the device handle.  Byte values are `Fin 256`, as in a Python
`bytearray`/`bytes` object. -/
inductive Effect where
  | printBytes (bytes : List (Fin 256))
  | osWrite (fd : Nat) (bytes : List (Fin 256))
  | osRead (fd : Nat) (count : Int)
  deriving DecidableEq, Repr

/-- `Write(self, packet)`: `out = bytearray(packet)`; `print(out)`;
`os.write(self.dev, out)`.  No attribute of `self` is assigned, so the state
is returned unchanged, with the effects in program order.  (`bytearray`
would raise on an element outside 0..255, so packets are byte lists.) -/
def OpenBSDHidDevice.Write (t : OpenBSDHidDevice) (packet : List (Fin 256)) :
    OpenBSDHidDevice × List Effect :=
  (t, [Effect.printBytes packet, Effect.osWrite t.dev packet])

/-- `Read(self)`: `raw_in = os.read(self.dev, self.GetInReportDataLength())`;
`decoded_in = list(bytearray(raw_in))`; `return decoded_in`.  `delivered`
supplies the bytes the OS call returns (possibly fewer than requested).  No
attribute of `self` is assigned, so the state is returned unchanged, with
the effects and the decoded list of Python ints. -/
def OpenBSDHidDevice.Read (t : OpenBSDHidDevice) (delivered : List (Fin 256)) :
    OpenBSDHidDevice × List Effect × List Nat :=
  (t, [Effect.osRead t.dev t.GetInReportDataLength],
   delivered.map Fin.val)

/-- One transport method call, for reasoning about call sequences on an open
transport. -/
inductive TransportOp where
  | write (packet : List (Fin 256))
  | read (delivered : List (Fin 256))
  | getInLen
  | getOutLen
  deriving DecidableEq, Repr

/-- The transport state after one method call. -/
def runOp (t : OpenBSDHidDevice) : TransportOp → OpenBSDHidDevice
  | TransportOp.write p => (t.Write p).1
  | TransportOp.read bs => (t.Read bs).1
  | TransportOp.getInLen => t
  | TransportOp.getOutLen => t

/-- The transport state after a sequence of method calls. -/
def runOps (t : OpenBSDHidDevice) : List TransportOp → OpenBSDHidDevice
  | [] => t
  | op :: rest => runOps (runOp t op) rest

/-- A libusbhid environment in which every call succeeds, the report sizes
are 64 bytes, and the first item's combined usage is 0xF1D00001 (the
specification's example device). -/
def rrdOkEnv : RrdEnv :=
  { getReportDesc := some 1, startParse := some 2,
    reportSizeIn := 64, reportSizeOut := 64,
    getItemRes := 1, getItemUsage := 0xF1D00001 }

/-- The specification's example vendor string. -/
def yubicoStr : String := "Yubico"

/-- The specification's example product string. -/
def u2fKeyStr : String := "U2F Key"

/-- Sample directory entries. -/
def uhid0 : String := "uhid0"

/-- Sample directory entries. -/
def uhid1 : String := "uhid1"

/-- Sample directory entries. -/
def uhid2 : String := "uhid2"

/-- A candidate whose probe succeeds end to end, with the specification's
example metadata. -/
def candOk (nm : String) : CandidateEnv :=
  { name := nm, openOk := true, ioctlOk := true,
    vendorNo := 0x1050, productNo := 0x0402,
    vendorDecode := some yubicoStr, productDecode := some u2fKeyStr,
    rrd := rrdOkEnv }

/-- A candidate whose vendor-string decoding raises `UnicodeDecodeError`. -/
def candBadDecode : CandidateEnv :=
  { candOk uhid0 with vendorDecode := none }

/-- A candidate whose probe `open` raises `OSError`. -/
def candOpenFail : CandidateEnv :=
  { candOk uhid2 with openOk := false }

/-! ## Helper lemmas -/

/-- Right shift distributes over bitwise and. -/
theorem shiftRight_and_distrib (x y k : Nat) :
    (x &&& y) >>> k = (x >>> k) &&& (y >>> k) :=
  Nat.eq_of_testBit_eq fun i => by simp

/-- For a 32-bit combined usage value, masking the high half before shifting
is the same as shifting: `(u &&& 0xffff0000) >>> 16 = u >>> 16`. -/
theorem usagePage_mask_shift (u : Nat) (h : u < 2 ^ 32) :
    (u &&& 0xffff0000) >>> 16 = u >>> 16 := by
  rw [shiftRight_and_distrib]
  have h2 : (0xffff0000 : Nat) >>> 16 = 0xffff := by decide
  rw [h2]
  have h3 : u >>> 16 < 2 ^ 16 := by
    rw [Nat.shiftRight_eq_div_pow]
    have h4 : u < 4294967296 := by norm_num at h; exact h
    omega
  have h5 : (0xffff : Nat) = 2 ^ 16 - 1 := by norm_num
  rw [h5]
  exact Nat.and_pow_two_sub_one_of_lt_two_pow h3

/-- The high half of a 32-bit value is below `2 ^ 16`. -/
theorem shiftRight16_lt (u : Nat) (h : u < 2 ^ 32) : u >>> 16 < 2 ^ 16 := by
  rw [Nat.shiftRight_eq_div_pow]
  have h4 : u < 4294967296 := by norm_num at h; exact h
  omega

/-- The low half of any value is below `2 ^ 16`. -/
theorem and_ffff_lt (u : Nat) : u &&& 0xffff < 2 ^ 16 :=
  Nat.and_lt_two_pow u (by norm_num)

/-- On the success path, `ReadReportDescriptor` returns the input descriptor
with the two report lengths and the split usage fields updated. -/
theorem rrd_ok {env : RrdEnv} {desc d : DeviceDescriptor}
    {evs : List RrdRelease}
    (h : ReadReportDescriptor env desc = (none, d, evs)) :
    d = { desc with
          internal_max_in_report_len := env.reportSizeIn,
          internal_max_out_report_len := env.reportSizeOut,
          usage_page := (env.getItemUsage &&& 0xffff0000) >>> 16,
          usage := env.getItemUsage &&& 0x0000ffff } := by
  unfold ReadReportDescriptor at h
  split at h
  · simp at h
  · split at h
    · simp at h
    · split at h
      · simp at h
      · simp at h
        exact h.1.symm

/-- A descriptor produced by `Enumerate` comes from some candidate whose
probe yielded it. -/
theorem mem_enumerate {envs : List CandidateEnv} {d : DeviceDescriptor}
    (hd : d ∈ (Enumerate envs).1) :
    ∃ c, c ∈ envs ∧ probeCandidate c = ProbeOutcome.yielded d := by
  induction envs with
  | nil => simp [Enumerate] at hd
  | cons c rest ih =>
    cases hp : probeCandidate c with
    | skipped =>
      rw [Enumerate, hp] at hd
      obtain ⟨c2, hc2, hy⟩ := ih hd
      exact ⟨c2, List.mem_cons_of_mem _ hc2, hy⟩
    | yielded d0 =>
      rw [Enumerate, hp] at hd
      rcases List.mem_cons.mp hd with h0 | h1
      · exact ⟨c, List.mem_cons_self _ _, by rw [hp, h0]⟩
      · obtain ⟨c2, hc2, hy⟩ := ih h1
        exact ⟨c2, List.mem_cons_of_mem _ hc2, hy⟩
    | raised e =>
      rw [Enumerate, hp] at hd
      simp at hd

/-- The fields of a descriptor yielded by a successful probe: the report
lengths come from `hid_report_size` and the usage fields from splitting the
first item's combined usage. -/
theorem probeCandidate_yielded {c : CandidateEnv} {d : DeviceDescriptor}
    (h : probeCandidate c = ProbeOutcome.yielded d) :
    d.internal_max_in_report_len = c.rrd.reportSizeIn ∧
    d.internal_max_out_report_len = c.rrd.reportSizeOut ∧
    d.usage_page = (c.rrd.getItemUsage &&& 0xffff0000) >>> 16 ∧
    d.usage = c.rrd.getItemUsage &&& 0x0000ffff := by
  unfold probeCandidate at h
  split at h
  · cases h
  · split at h
    · cases h
    · split at h
      · cases h
      · split at h
        · cases h
        · split at h
          · cases h
          · rename_i heq
            split at h
            · rename_i e x y heq2
              split at h
              · cases h
              · cases h
            · rename_i d0 evs heq2
              cases h
              rw [rrd_ok heq2]
              exact ⟨rfl, rfl, rfl, rfl⟩

/-- One transport method call leaves the transport state unchanged. -/
theorem runOp_id (t : OpenBSDHidDevice) (op : TransportOp) : runOp t op = t := by
  cases op <;> rfl

/-- Any sequence of transport method calls leaves the state unchanged. -/
theorem runOps_id (t : OpenBSDHidDevice) (ops : List TransportOp) :
    runOps t ops = t := by
  induction ops with
  | nil => rfl
  | cons op rest ih => rw [runOps, runOp_id]; exact ih

/-- The public record a candidate contributes when nothing fails while
probing it. -/
def probeYieldPublic (c : CandidateEnv) : Option PublicDict :=
  (probeYield c).map DeviceDescriptor.ToPublicDict

/-- If no candidate's probe lets an exception escape, enumeration runs to
completion: it raises nothing and the backing descriptors are exactly the
successful candidates' yields, in order. -/
theorem enumerate_no_raise (envs : List CandidateEnv)
    (h : ∀ c ∈ envs, (probeCandidate c).raises = false) :
    Enumerate envs = (envs.filterMap probeYield, none) := by
  induction envs with
  | nil => rfl
  | cons c rest ih =>
    have hc := h c (List.mem_cons_self _ _)
    have hrest := fun x hx => h x (List.mem_cons_of_mem _ hx)
    cases hp : probeCandidate c with
    | skipped => simp [Enumerate, hp, ih hrest, List.filterMap_cons, probeYield]
    | yielded d => simp [Enumerate, hp, ih hrest, List.filterMap_cons, probeYield]
    | raised e => rw [hp] at hc; simp [ProbeOutcome.raises] at hc

/-- Claim C1 as stated: for every list of candidates, every probe failure is
caught, the failing candidate alone is omitted from the yielded sequence,
and the other candidates' records are unaffected; enumeration never lets an
exception escape. -/
def C1Claim (envs : List CandidateEnv) : Prop :=
  EnumeratePublic envs = (envs.filterMap probeYieldPublic, none)

/-- C1 counterexample: with two candidates of which the first fails
vendor-string decoding (`UnicodeDecodeError`, which `except OSError` does
not catch), enumeration aborts with that exception and the intact second
device is never yielded. -/
theorem C1_counterexample :
    ¬ C1Claim [candBadDecode, candOk uhid1] := by
  unfold C1Claim
  decide

/-- C1 amended: only `OSError` is caught per candidate.  Whenever no
candidate's probe raises a non-`OSError` exception (decoding failures and
interpreter failures are the exceptions that escape), enumeration never
raises, each candidate that fails `open` or the ioctl with `OSError` is
silently omitted, and the records yielded for the other candidates are
exactly their probe results, unaffected. -/
theorem C1_amended (envs : List CandidateEnv)
    (h : ∀ c ∈ envs, (probeCandidate c).raises = false) :
    EnumeratePublic envs = (envs.filterMap probeYieldPublic, none) := by
  rw [EnumeratePublic, enumerate_no_raise envs h]
  simp only [List.map_filterMap]
  rfl

/-- C1 witness: a run with one good candidate and one whose `open` fails
with `OSError` yields exactly the good candidate's record and raises
nothing. -/
theorem C1_amended_witness :
    EnumeratePublic [candOk uhid0, candOpenFail] =
      ([candOk uhid0, candOpenFail].filterMap probeYieldPublic, none) :=
  C1_amended [candOk uhid0, candOpenFail] (by decide)

/-- Claim C2 as stated: in every execution of `ReadReportDescriptor`, each
of the two native resources it acquires — the report-descriptor handle and
the parser context — is released exactly once before the call returns. -/
def C2Claim (env : RrdEnv) (desc : DeviceDescriptor) : Prop :=
  (env.getReportDesc.isSome = true →
    (ReadReportDescriptor env desc).2.2.count RrdRelease.disposeReportDesc = 1) ∧
  ((env.getReportDesc.isSome && env.startParse.isSome) = true →
    (ReadReportDescriptor env desc).2.2.count RrdRelease.endParse = 1)

/-- C2 counterexample: in a fully successful execution both resources are
acquired, but the parser context is never released — the call makes no
`hid_end_parse` call, so its release count is 0, not 1. -/
theorem C2_counterexample : ¬ C2Claim rrdOkEnv {} := by
  unfold C2Claim
  decide

/-- C2 amended: the report-descriptor handle is released exactly once on
every exit path on which it was acquired (and never otherwise), but the
parser context created by `hid_start_parse` is never released: the function
contains no `hid_end_parse` call, so the context leaks on every path. -/
theorem C2_amended (env : RrdEnv) (desc : DeviceDescriptor) :
    (ReadReportDescriptor env desc).2.2.count RrdRelease.disposeReportDesc =
      (if env.getReportDesc.isSome = true then 1 else 0) ∧
    (ReadReportDescriptor env desc).2.2.count RrdRelease.endParse = 0 := by
  obtain ⟨grd, sp, rin, rout, gir, giu⟩ := env
  by_cases hg : gir < 0 <;> cases grd <;> cases sp <;>
    simp [ReadReportDescriptor, hg, List.count_cons, List.count_nil]

/-- The libusbhid convention for `hid_get_item`: it returns a positive value
when an item was retrieved and `0` when no item is available (the parsed
item stream is exhausted, as for a report descriptor with zero items); a
negative value is not used for emptiness. -/
def noItemAvailable (env : RrdEnv) : Prop := env.getItemRes = 0

/-- A libusbhid environment for a device whose report descriptor parses but
contains zero items: `hid_get_item` finds no item and returns `0`, leaving
the zero-initialised `HidItem` untouched. -/
def rrdEmptyDescEnv : RrdEnv :=
  { getReportDesc := some 1, startParse := some 2,
    reportSizeIn := 0, reportSizeOut := 0,
    getItemRes := 0, getItemUsage := 0 }

/-- C3: the code checks `res < 0`, but `hid_get_item` signals an empty item
stream by returning `0`, so for a report descriptor with zero items the
interpreter raises nothing and returns a populated result with
`usage_page = 0` and `usage = 0` instead of failing with
`DescriptorUnavailable` as the specification requires (and the failure it
can raise is a `NameError`, not a `DescriptorUnavailable`). -/
theorem C3_code_bug :
    noItemAvailable rrdEmptyDescEnv ∧
    (ReadReportDescriptor rrdEmptyDescEnv {}).1 = none ∧
    (ReadReportDescriptor rrdEmptyDescEnv {}).2.1.usage_page = 0 ∧
    (ReadReportDescriptor rrdEmptyDescEnv {}).2.1.usage = 0 := by
  unfold noItemAvailable
  decide

/-- An `__init__` environment where `os.open` succeeds with descriptor 5 but
`hid_start_parse` fails, so descriptor interpretation raises. -/
def initRrdFailEnv : InitEnv :=
  { openFd := some 5, rrd := { rrdOkEnv with startParse := none } }

/-- The example device path. -/
def examplePath : String := devDir ++ uhid0

/-- Claim C4 as stated: if `os.open` succeeds but descriptor interpretation
fails, the constructor fails with `DescriptorUnavailable` and no open handle
remains held. -/
def C4Claim (path : String) (env : InitEnv) : Prop :=
  env.openFd.isSome = true →
  (ReadReportDescriptor env.rrd { path := path }).1.isSome = true →
  ((OpenBSDHidDevice.init path env).1 = Except.error PyExc.descriptorUnavailable ∧
   (OpenBSDHidDevice.init path env).2 = [])

/-- C4 counterexample: with the open succeeding as descriptor 5 and the
interpreter failing, the constructor propagates a `NameError` (not a
`DescriptorUnavailable`) and descriptor 5 is still open when the exception
escapes — `__init__` has no handler and never calls `os.close`. -/
theorem C4_counterexample : ¬ C4Claim examplePath initRrdFailEnv := by
  unfold C4Claim
  decide

/-- C4 amended: if `os.open` succeeds and descriptor interpretation raises,
the constructor propagates that exception unchanged (a `NameError` at the
code's `raise` sites) and the device handle opened by `os.open` remains
open. -/
theorem C4_amended (path : String) (env : InitEnv) (fd : Nat)
    (hfd : env.openFd = some fd) (e : PyExc)
    (he : (ReadReportDescriptor env.rrd { path := path }).1 = some e) :
    OpenBSDHidDevice.init path env = (Except.error e, [fd]) := by
  unfold OpenBSDHidDevice.init
  rw [hfd]
  dsimp only
  split
  · rename_i heq
    rw [heq] at he
    simp at he
    rw [he]
  · rename_i heq
    rw [heq] at he
    simp at he

/-- C4 witness: the amended claim at the concrete failing environment. -/
theorem C4_amended_witness :
    OpenBSDHidDevice.init examplePath initRrdFailEnv =
      (Except.error PyExc.nameError, [5]) :=
  C4_amended examplePath initRrdFailEnv 5 rfl PyExc.nameError rfl

/-- The descriptor enumeration produces for the specification's example
device: combined usage 0xF1D00001 splits into usage page 0xF1D0 and usage
0x0001, with 64-byte reports. -/
def exampleDesc : DeviceDescriptor :=
  { path := devDir ++ uhid0, vendor_id := 0x1050, product_id := 0x0402,
    vendor_string := yubicoStr, product_string := u2fKeyStr,
    usage_page := 0xF1D0, usage := 0x0001,
    internal_max_in_report_len := 64, internal_max_out_report_len := 64 }

/-- C5: every descriptor produced by `Enumerate` has non-negative report
lengths and its `usage_page`/`usage` are the two 16-bit halves of the first
parsed item's combined 32-bit usage value: `usage_page = combined >>> 16`,
`usage = combined &&& 0xffff`, each below `2 ^ 16`.  The hypotheses record
the native guarantees: `hiditem.usage` is a `c_uint32`, so it is below
`2 ^ 32`, and `hid_report_size` returns a non-negative byte count. -/
theorem C5_usage_split (envs : List CandidateEnv) (d : DeviceDescriptor)
    (hd : d ∈ (Enumerate envs).1)
    (hu : ∀ c ∈ envs, c.rrd.getItemUsage < 2 ^ 32)
    (hs : ∀ c ∈ envs, 0 ≤ c.rrd.reportSizeIn ∧ 0 ≤ c.rrd.reportSizeOut) :
    0 ≤ d.internal_max_in_report_len ∧ 0 ≤ d.internal_max_out_report_len ∧
    d.usage_page < 2 ^ 16 ∧ d.usage < 2 ^ 16 ∧
    ∃ c, c ∈ envs ∧ probeCandidate c = ProbeOutcome.yielded d ∧
      d.usage_page = c.rrd.getItemUsage >>> 16 ∧
      d.usage = c.rrd.getItemUsage &&& 0xffff := by
  obtain ⟨c, hc, hy⟩ := mem_enumerate hd
  obtain ⟨h1, h2, h3, h4⟩ := probeCandidate_yielded hy
  have hub := hu c hc
  have hsb := hs c hc
  refine ⟨h1 ▸ hsb.1, h2 ▸ hsb.2, ?_, ?_, c, hc, hy, ?_, h4⟩
  · rw [h3, usagePage_mask_shift _ hub]
    exact shiftRight16_lt _ hub
  · rw [h4]
    exact and_ffff_lt _
  · rw [h3]
    exact usagePage_mask_shift _ hub

/-- C5 witness: the specification's example device, enumerated alone. -/
theorem C5_usage_split_witness :
    0 ≤ exampleDesc.internal_max_in_report_len ∧
    0 ≤ exampleDesc.internal_max_out_report_len ∧
    exampleDesc.usage_page < 2 ^ 16 ∧ exampleDesc.usage < 2 ^ 16 ∧
    ∃ c, c ∈ [candOk uhid0] ∧
      probeCandidate c = ProbeOutcome.yielded exampleDesc ∧
      exampleDesc.usage_page = c.rrd.getItemUsage >>> 16 ∧
      exampleDesc.usage = c.rrd.getItemUsage &&& 0xffff :=
  C5_usage_split [candOk uhid0] exampleDesc (by decide) (by decide) (by decide)

/-- Claim C6 as stated: every candidate node is opened for read and write
before it is probed, and a failed open skips just that candidate. -/
def C6Claim : Prop :=
  enumerateProbeOpenMode = OpenMode.readWrite ∧
  ∀ c : CandidateEnv, pyStartsWith c.name uhidStr = true → c.openOk = false →
    probeCandidate c = ProbeOutcome.skipped

/-- C6 counterexample: the probe `open(path)` passes no mode, so the node is
opened read-only, not read/write. -/
theorem C6_counterexample : ¬ C6Claim := by
  intro h
  exact absurd h.1 (by decide)

/-- C6 amended: each candidate node is opened read-only (Python's default
`open` mode) before it is probed; if that open fails with `OSError` the
candidate is skipped and enumeration continues with the next candidate. -/
theorem C6_amended :
    enumerateProbeOpenMode = OpenMode.readOnly ∧
    ∀ c : CandidateEnv, pyStartsWith c.name uhidStr = true →
      c.openOk = false → probeCandidate c = ProbeOutcome.skipped := by
  refine ⟨rfl, fun c hpre hopen => ?_⟩
  simp [probeCandidate, hpre, hopen]

/-- C6 witness: the candidate whose open fails is skipped. -/
theorem C6_amended_witness :
    enumerateProbeOpenMode = OpenMode.readOnly ∧
    probeCandidate candOpenFail = ProbeOutcome.skipped :=
  ⟨C6_amended.1, C6_amended.2 candOpenFail (by decide) (by decide)⟩

/-- An `__init__` environment where `os.open` itself fails (nonexistent
path, permissions, removed device). -/
def initNoOpenEnv : InitEnv := { openFd := none, rrd := rrdOkEnv }

/-- Claim C7 as stated: when the open fails, the constructor fails with a
`DeviceUnavailable` error, not a generic one. -/
def C7Claim (path : String) (env : InitEnv) : Prop :=
  env.openFd = none →
  (OpenBSDHidDevice.init path env).1 = Except.error PyExc.deviceUnavailable

/-- C7 counterexample: when `os.open` fails the constructor propagates the
generic `OSError` unchanged; no `DeviceUnavailable` error type exists in the
code. -/
theorem C7_counterexample : ¬ C7Claim examplePath initNoOpenEnv := by
  unfold C7Claim
  decide

/-- C7 amended: whenever `os.open` fails, the constructor fails by letting
the generic `OSError` propagate, with no handle left open. -/
theorem C7_amended (path : String) (env : InitEnv) (h : env.openFd = none) :
    OpenBSDHidDevice.init path env = (Except.error PyExc.osError, []) := by
  unfold OpenBSDHidDevice.init
  rw [h]

/-- C7 witness: the amended claim at a concrete failing open. -/
theorem C7_amended_witness :
    OpenBSDHidDevice.init examplePath initNoOpenEnv =
      (Except.error PyExc.osError, []) :=
  C7_amended examplePath initNoOpenEnv rfl

/-- An `__init__` environment in which everything succeeds: descriptor 5,
the example libusbhid outcomes. -/
def initOkEnv : InitEnv := { openFd := some 5, rrd := rrdOkEnv }

/-- The transport `OpenBSDHidDevice.init examplePath initOkEnv`
constructs. -/
def exampleTransport : OpenBSDHidDevice :=
  { path := examplePath, dev := 5,
    desc := { path := examplePath, usage_page := 0xF1D0, usage := 0x0001,
              internal_max_in_report_len := 64,
              internal_max_out_report_len := 64 } }

/-- C8: after a successful `__init__`, any sequence of transport method
calls leaves the transport state unchanged, and `GetInReportDataLength` and
`GetOutReportDataLength` keep returning the two `hid_report_size` values
fixed at open time — plain field reads, with no recomputation and no
mutation by `Read` or `Write`. -/
theorem C8_lengths_fixed (path : String) (env : InitEnv)
    (t : OpenBSDHidDevice)
    (h : (OpenBSDHidDevice.init path env).1 = Except.ok t)
    (ops : List TransportOp) :
    runOps t ops = t ∧
    (runOps t ops).GetInReportDataLength = env.rrd.reportSizeIn ∧
    (runOps t ops).GetOutReportDataLength = env.rrd.reportSizeOut := by
  have hlen : t.GetInReportDataLength = env.rrd.reportSizeIn ∧
      t.GetOutReportDataLength = env.rrd.reportSizeOut := by
    unfold OpenBSDHidDevice.init at h
    split at h
    · simp at h
    · split at h
      · simp at h
      · rename_i heq
        simp at h
        rw [← h, OpenBSDHidDevice.GetInReportDataLength,
          OpenBSDHidDevice.GetOutReportDataLength]
        rw [rrd_ok heq]
        exact ⟨rfl, rfl⟩
  exact ⟨runOps_id t ops, by rw [runOps_id]; exact hlen.1,
    by rw [runOps_id]; exact hlen.2⟩

/-- C8 witness: a concrete open followed by a write, a read and repeated
length queries; the lengths stay 64. -/
theorem C8_lengths_fixed_witness :
    runOps exampleTransport
        [TransportOp.getInLen, TransportOp.write [], TransportOp.read [],
         TransportOp.getOutLen, TransportOp.getInLen] = exampleTransport ∧
    (runOps exampleTransport
        [TransportOp.getInLen, TransportOp.write [], TransportOp.read [],
         TransportOp.getOutLen, TransportOp.getInLen]).GetInReportDataLength
      = 64 ∧
    (runOps exampleTransport
        [TransportOp.getInLen, TransportOp.write [], TransportOp.read [],
         TransportOp.getOutLen, TransportOp.getInLen]).GetOutReportDataLength
      = 64 :=
  C8_lengths_fixed examplePath initOkEnv exampleTransport (by rfl)
    [TransportOp.getInLen, TransportOp.write [], TransportOp.read [],
     TransportOp.getOutLen, TransportOp.getInLen]

/-- C9: every `Write(packet)` call produces, besides the `os.write` of the
packet's bytes to the device handle, a `print` of those bytes on standard
output — in that order, on every call. -/
theorem C9_write_prints (t : OpenBSDHidDevice) (packet : List (Fin 256)) :
    (t.Write packet).2 =
      [Effect.printBytes packet, Effect.osWrite t.dev packet] :=
  rfl

/-- C10: `Read()` issues one `os.read` on the device handle requesting
exactly `GetInReportDataLength()` bytes (hence never more), and returns the
bytes the OS delivered — possibly fewer than requested — as a list of
integers equal in length, order and value to the delivered byte sequence,
each element below 256. -/
theorem C10_read_faithful (t : OpenBSDHidDevice)
    (delivered : List (Fin 256)) :
    (t.Read delivered).2.1 =
      [Effect.osRead t.dev t.GetInReportDataLength] ∧
    (t.Read delivered).2.2 = delivered.map Fin.val ∧
    (t.Read delivered).2.2.length = delivered.length ∧
    ∀ x ∈ (t.Read delivered).2.2, x < 256 := by
  refine ⟨rfl, rfl, by simp [OpenBSDHidDevice.Read], ?_⟩
  intro x hx
  simp [OpenBSDHidDevice.Read] at hx
  obtain ⟨b, hb, hbx⟩ := hx
  rw [← hbx]
  exact b.isLt

/-- C10 witness: a concrete short read of two bytes on the example
transport. -/
theorem C10_read_faithful_witness :
    (exampleTransport.Read [1, 255]).2.1 = [Effect.osRead 5 64] ∧
    (exampleTransport.Read [1, 255]).2.2 = [1, 255] ∧
    (exampleTransport.Read [1, 255]).2.2.length = 2 ∧
    ∀ x ∈ (exampleTransport.Read [1, 255]).2.2, x < 256 :=
  C10_read_faithful exampleTransport [1, 255]

end Pyu2f
